import Mathlib

/-!
Shallow embedding of the JSON-UPnP proxy server
(`src/json_upnp_proxy/json_upnp_prox_server.py`).

The mutable dictionaries of the Python program (`self.devices`,
`self.conversion_cache`) are modelled as association lists in insertion
order, which is exactly the iteration/ordering semantics of a Python
`dict`.  Timestamps (event-loop clock readings) are modelled as integers;
the random jitter sample of `random.uniform(0, mx)` is modelled as a
rational sample `r ∈ [0,1]` scaled by `mx`.  External collaborators
(the aiohttp fetch, the `urllib.parse.unquote` decoder and the
`UPnPConverter.xml_to_dict` converter) are passed in as function
parameters; their outcomes are explicit values.
-/

namespace JsonUpnpProxy

/-- Opaque converted-description value (the JSON dict produced by the
external `UPnPConverter`). Its internal structure never matters to the
proxy, so it is wrapped as a plain tag. -/
structure JsonVal where
  val : String
deriving DecidableEq, Repr

/-- Device discovered via SSDP (`class DiscoveredDevice`). -/
structure DiscoveredDevice where
  location : String
  device_type : String
  uuid : String
  addr : String × Nat
  last_seen : Int
deriving DecidableEq, Repr

/-- Model of `DiscoveredDevice.update_last_seen`: the event-loop time at
the moment of the call is passed explicitly. -/
def DiscoveredDevice.update_last_seen (d : DiscoveredDevice) (now : Int) :
    DiscoveredDevice :=
  { d with last_seen := now }

/-- The registry `self.devices : Dict[str, DiscoveredDevice]`, in
insertion order. -/
abbrev Registry := List (String × DiscoveredDevice)

/-- The cache `self.conversion_cache : Dict[str, Dict]`, in insertion
order. -/
abbrev Cache := List (String × JsonVal)

/-- Dictionary lookup (`k in d` / `d[k]`) on an association list. -/
def lookupD {β : Type} : List (String × β) → String → Option β
  | [], _ => none
  | (k, v) :: rest, u => if k = u then some v else lookupD rest u

/-- Number of entries stored under a key (a Python dict always has 0 or
1; stated over arbitrary lists so uniqueness can be proved). -/
def countKey {β : Type} : List (String × β) → String → Nat
  | [], _ => 0
  | (k, _) :: rest, u => (if k = u then 1 else 0) + countKey rest u

/-- Lowercased character list of a string (`s.lower()`, ASCII-faithful). -/
def lowerChars (s : String) : List Char := s.data.map Char.toLower

/-- Substring occurrence test on character lists (Python `in` on str). -/
def containsSub (needle : List Char) : List Char → Bool
  | [] => needle.isEmpty
  | c :: t => needle.isPrefixOf (c :: t) || containsSub needle t

/-- Model of Python `needle in hay.lower()` for an already-lowercase
needle literal. -/
def containsLowered (needle hay : String) : Bool :=
  containsSub needle.data (lowerChars hay)

/-- Model of Python `s or default` for an optional string: `None` and
the empty string are falsy. -/
def pyOrStr (s : Option String) (d : String) : String :=
  match s with
  | none => d
  | some t => if t = "" then d else t

/-- Model of line 313, `device_type and "json-upnp" in
device_type.lower()`: a falsy role (`None` or empty) short-circuits the
conjunction to false. -/
def roleIsJsonUpnp (role : Option String) : Bool :=
  match role with
  | none => false
  | some t => if t = "" then false else containsLowered "json-upnp" t

/-- Registration path of `_handle_ssdp_message` (lines 317-321): known
identifier refreshes only `last_seen`; unknown identifier appends a new
`DiscoveredDevice(location, device_type or "unknown", uuid, addr)`. -/
def upsert (devices : Registry) (uuid location : String)
    (role : Option String) (addr : String × Nat) (now : Int) : Registry :=
  if (lookupD devices uuid).isSome then
    devices.map fun p =>
      if p.1 = uuid then (p.1, p.2.update_last_seen now) else p
  else
    devices ++ [(uuid, ⟨location, pyOrStr role "unknown", uuid, addr, now⟩)]

/-- Parsed SSDP message (accessor results of the external
`ParsedMessage`). -/
structure ParsedMessage where
  location : Option String
  uuid : Option String
  role : Option String
  searchTarget : Option String
  maxWait : Option Nat
deriving DecidableEq, Repr

/-- Full `_handle_ssdp_message` (lines 299-321): drop events with a
falsy location or uuid, self events, and json-upnp-role events;
otherwise register/update the device. -/
def handle_ssdp_message (proxy_uuid : String) (devices : Registry)
    (m : ParsedMessage) (addr : String × Nat) (now : Int) : Registry :=
  match m.location, m.uuid with
  | some l, some u =>
    if l = "" ∨ u = "" then devices
    else if u = proxy_uuid then devices
    else if roleIsJsonUpnp m.role then devices
    else upsert devices u l m.role addr now
  | _, _ => devices

/-- Staleness test of `_cleanup_loop` (line 385):
`current_time - device.last_seen > max_age`. -/
def isStale (now maxAge : Int) (d : DiscoveredDevice) : Bool :=
  decide (now - d.last_seen > maxAge)

/-- Registry sweep of `_cleanup_loop` (lines 380-390), generalised over
the threshold: returns the removed identifiers and the surviving
registry. -/
def sweep (devices : Registry) (now maxAge : Int) :
    List String × Registry :=
  ((devices.filter fun p => isStale now maxAge p.2).map Prod.fst,
   devices.filter fun p => !isStale now maxAge p.2)

/-- The sweep exactly as the loop runs it, with the hard-coded 3600
second threshold. -/
def cleanupSweep (devices : Registry) (now : Int) : List String × Registry :=
  sweep devices now 3600

/-- Dictionary store `self.conversion_cache[url] = json_dict`: overwrite
in place when the key exists, append otherwise. -/
def put (cache : Cache) (k : String) (v : JsonVal) : Cache :=
  if (lookupD cache k).isSome then
    cache.map fun p => if p.1 = k then (k, v) else p
  else cache ++ [(k, v)]

/-- Sequence of stores. -/
def putAll (cache : Cache) (entries : List (String × JsonVal)) : Cache :=
  entries.foldl (fun c e => put c e.1 e.2) cache

/-- Cache compaction of `_cleanup_loop` (lines 393-396):
`if len(cache) > max_size: cache = dict(items[-keep:])`, i.e. keep the
`keep` most recently inserted entries. -/
def compact (cache : Cache) (maxSize keep : Nat) : Cache :=
  if cache.length > maxSize then cache.drop (cache.length - keep)
  else cache

/-- The compaction exactly as the loop runs it (thresholds 100/50). -/
def cleanupCompact (cache : Cache) : Cache :=
  compact cache 100 50

/-- Response decision of `_handle_msearch` (lines 328-335). -/
def shouldRespond (target : Option String) : Bool :=
  match target with
  | none => false
  | some t =>
    if t = "ssdp:all" then true
    else if t ≠ "" && containsLowered "json-upnp" t then true
    else if t ≠ "" && containsLowered "proxy" t then true
    else false

/-- Model of `message.get_max_wait() or 3` (line 338): Python `or`
replaces both a missing and a zero max-wait by the default 3. -/
def effectiveMaxWait : Option Nat → Nat
  | none => 3
  | some v => if v = 0 then 3 else v

/-- Model of `random.uniform(0, mx)` (line 339): the uniform sample is
`r * mx` for a random source value `r ∈ [0,1]`. -/
def responseDelay (r : ℚ) (maxWait : Option Nat) : ℚ :=
  r * (effectiveMaxWait maxWait : ℚ)

/-- Full `_handle_msearch` (lines 323-342): when the policy decides to
respond, sleep the jitter delay then broadcast a response carrying the
queried target; the result records `(delay, echoed target)`. -/
def handle_msearch (m : ParsedMessage) (r : ℚ) : Option (ℚ × Option String) :=
  if shouldRespond m.searchTarget then
    some (responseDelay r m.maxWait, m.searchTarget)
  else none

/-- Outcome of the aiohttp fetch of a URL: timeout
(`asyncio.TimeoutError`), some other exception, or a completed response
with a status code and body text. -/
inductive FetchOutcome
  | timeout
  | failed (msg : String)
  | ok (status : Nat) (text : String)
deriving DecidableEq, Repr

/-- Body of an HTTP reply from the proxy: a converted JSON document or
an error payload. -/
inductive Body
  | json (v : JsonVal)
  | err (msg : String)
deriving DecidableEq, Repr

/-- HTTP reply (status code plus body). -/
structure HttpResponse where
  status : Nat
  body : Body
deriving DecidableEq, Repr

/-- Full `_handle_device_to_json` (lines 195-231).  `urlParam` is the
raw `url` query parameter (`None` when absent); `unquote` is the
external percent-decoder; `fetch` gives the outcome of the HTTP GET of
a URL; `conv` is `UPnPConverter.xml_to_dict`, which either fails with a
message (an exception, caught and turned into a 500) or returns the
converted document.  Returns the reply and the updated cache. -/
def handle_device_to_json (cache : Cache) (urlParam : Option String)
    (unquote : String → String) (fetch : String → FetchOutcome)
    (conv : String → Except String JsonVal) : HttpResponse × Cache :=
  match urlParam with
  | none => (⟨400, .err "Missing \x27url\x27 parameter"⟩, cache)
  | some u0 =>
    if u0 = "" then (⟨400, .err "Missing \x27url\x27 parameter"⟩, cache)
    else
      let url := unquote u0
      match lookupD cache url with
      | some v => (⟨200, .json v⟩, cache)
      | none =>
        match fetch url with
        | .timeout =>
          (⟨504, .err "Timeout fetching device description"⟩, cache)
        | .failed e => (⟨500, .err e⟩, cache)
        | .ok status text =>
          if status ≠ 200 then
            (⟨502, .err ("Device returned status " ++ toString status)⟩,
             cache)
          else
            match conv text with
            | .error e => (⟨500, .err e⟩, cache)
            | .ok j => (⟨200, .json j⟩, put cache url j)

/-- Body of a `/devices/{uuid}` reply. -/
inductive GetDeviceBody
  | notFound
  | okDesc (uuid location : String) (lastSeen : Int) (description : JsonVal)
  | errBody (uuid location : String) (error : String)
deriving DecidableEq, Repr

/-- Full `_handle_get_device` (lines 264-293): 404 for an unknown
identifier; otherwise always fetch the device description afresh
(ignoring the upstream status, as the source does) and convert it; any
exception becomes a 500 carrying uuid/location.  The conversion cache is
passed through to make its (non-)use provable. -/
def handle_get_device (devices : Registry) (cache : Cache) (uuid : String)
    (fetch : String → FetchOutcome)
    (conv : String → Except String JsonVal) :
    (Nat × GetDeviceBody) × Cache :=
  match lookupD devices uuid with
  | none => ((404, .notFound), cache)
  | some d =>
    match fetch d.location with
    | .timeout => ((500, .errBody uuid d.location ""), cache)
    | .failed e => ((500, .errBody uuid d.location e), cache)
    | .ok _ text =>
      match conv text with
      | .error e => ((500, .errBody uuid d.location e), cache)
      | .ok j => ((200, .okDesc uuid d.location d.last_seen j), cache)

/-- Hundred-and-one distinct description locations, used to exercise
the cache-compaction path on a concrete input. -/
def sampleEntries : List (String × JsonVal) :=
  [("loc000", JsonVal.mk "d"), ("loc001", JsonVal.mk "d"), ("loc002",
   JsonVal.mk "d"), ("loc003", JsonVal.mk "d"), ("loc004", JsonVal.mk
   "d"), ("loc005", JsonVal.mk "d"), ("loc006", JsonVal.mk "d"),
   ("loc007", JsonVal.mk "d"), ("loc008", JsonVal.mk "d"), ("loc009",
   JsonVal.mk "d"), ("loc010", JsonVal.mk "d"), ("loc011", JsonVal.mk
   "d"), ("loc012", JsonVal.mk "d"), ("loc013", JsonVal.mk "d"),
   ("loc014", JsonVal.mk "d"), ("loc015", JsonVal.mk "d"), ("loc016",
   JsonVal.mk "d"), ("loc017", JsonVal.mk "d"), ("loc018", JsonVal.mk
   "d"), ("loc019", JsonVal.mk "d"), ("loc020", JsonVal.mk "d"),
   ("loc021", JsonVal.mk "d"), ("loc022", JsonVal.mk "d"), ("loc023",
   JsonVal.mk "d"), ("loc024", JsonVal.mk "d"), ("loc025", JsonVal.mk
   "d"), ("loc026", JsonVal.mk "d"), ("loc027", JsonVal.mk "d"),
   ("loc028", JsonVal.mk "d"), ("loc029", JsonVal.mk "d"), ("loc030",
   JsonVal.mk "d"), ("loc031", JsonVal.mk "d"), ("loc032", JsonVal.mk
   "d"), ("loc033", JsonVal.mk "d"), ("loc034", JsonVal.mk "d"),
   ("loc035", JsonVal.mk "d"), ("loc036", JsonVal.mk "d"), ("loc037",
   JsonVal.mk "d"), ("loc038", JsonVal.mk "d"), ("loc039", JsonVal.mk
   "d"), ("loc040", JsonVal.mk "d"), ("loc041", JsonVal.mk "d"),
   ("loc042", JsonVal.mk "d"), ("loc043", JsonVal.mk "d"), ("loc044",
   JsonVal.mk "d"), ("loc045", JsonVal.mk "d"), ("loc046", JsonVal.mk
   "d"), ("loc047", JsonVal.mk "d"), ("loc048", JsonVal.mk "d"),
   ("loc049", JsonVal.mk "d"), ("loc050", JsonVal.mk "d"), ("loc051",
   JsonVal.mk "d"), ("loc052", JsonVal.mk "d"), ("loc053", JsonVal.mk
   "d"), ("loc054", JsonVal.mk "d"), ("loc055", JsonVal.mk "d"),
   ("loc056", JsonVal.mk "d"), ("loc057", JsonVal.mk "d"), ("loc058",
   JsonVal.mk "d"), ("loc059", JsonVal.mk "d"), ("loc060", JsonVal.mk
   "d"), ("loc061", JsonVal.mk "d"), ("loc062", JsonVal.mk "d"),
   ("loc063", JsonVal.mk "d"), ("loc064", JsonVal.mk "d"), ("loc065",
   JsonVal.mk "d"), ("loc066", JsonVal.mk "d"), ("loc067", JsonVal.mk
   "d"), ("loc068", JsonVal.mk "d"), ("loc069", JsonVal.mk "d"),
   ("loc070", JsonVal.mk "d"), ("loc071", JsonVal.mk "d"), ("loc072",
   JsonVal.mk "d"), ("loc073", JsonVal.mk "d"), ("loc074", JsonVal.mk
   "d"), ("loc075", JsonVal.mk "d"), ("loc076", JsonVal.mk "d"),
   ("loc077", JsonVal.mk "d"), ("loc078", JsonVal.mk "d"), ("loc079",
   JsonVal.mk "d"), ("loc080", JsonVal.mk "d"), ("loc081", JsonVal.mk
   "d"), ("loc082", JsonVal.mk "d"), ("loc083", JsonVal.mk "d"),
   ("loc084", JsonVal.mk "d"), ("loc085", JsonVal.mk "d"), ("loc086",
   JsonVal.mk "d"), ("loc087", JsonVal.mk "d"), ("loc088", JsonVal.mk
   "d"), ("loc089", JsonVal.mk "d"), ("loc090", JsonVal.mk "d"),
   ("loc091", JsonVal.mk "d"), ("loc092", JsonVal.mk "d"), ("loc093",
   JsonVal.mk "d"), ("loc094", JsonVal.mk "d"), ("loc095", JsonVal.mk
   "d"), ("loc096", JsonVal.mk "d"), ("loc097", JsonVal.mk "d"),
   ("loc098", JsonVal.mk "d"), ("loc099", JsonVal.mk "d"), ("loc100",
   JsonVal.mk "d")]

/-! Helper lemmas about association-list dictionaries. -/

theorem lookupD_append_of_none {β : Type} {l1 : List (String × β)} {k : String}
    (l2 : List (String × β)) (h : lookupD l1 k = none) :
    lookupD (l1 ++ l2) k = lookupD l2 k := by
  induction l1 with
  | nil => rfl
  | cons p rest ih =>
    obtain ⟨k1, v1⟩ := p
    by_cases hk : k1 = k
    · simp [lookupD, hk] at h
    · simp only [lookupD, hk, if_neg hk, List.cons_append] at h ⊢
      exact ih h

theorem lookupD_append_of_some {β : Type} {l1 : List (String × β)} {k : String}
    {v : β} (l2 : List (String × β)) (h : lookupD l1 k = some v) :
    lookupD (l1 ++ l2) k = some v := by
  induction l1 with
  | nil => simp [lookupD] at h
  | cons p rest ih =>
    obtain ⟨k1, v1⟩ := p
    by_cases hk : k1 = k
    · simp only [lookupD, if_pos hk, List.cons_append] at h ⊢
      exact h
    · simp only [lookupD, if_neg hk, List.cons_append] at h ⊢
      exact ih h

theorem countKey_append {β : Type} (l1 l2 : List (String × β)) (k : String) :
    countKey (l1 ++ l2) k = countKey l1 k + countKey l2 k := by
  induction l1 with
  | nil => simp [countKey]
  | cons p rest ih =>
    obtain ⟨k1, v1⟩ := p
    have hc : (k1, v1) :: rest ++ l2 = (k1, v1) :: (rest ++ l2) := rfl
    rw [hc]
    simp only [countKey]
    rw [ih]
    omega

theorem countKey_eq_zero {β : Type} {l : List (String × β)} {k : String}
    (h : lookupD l k = none) : countKey l k = 0 := by
  induction l with
  | nil => rfl
  | cons p rest ih =>
    obtain ⟨k1, v1⟩ := p
    by_cases hk : k1 = k
    · simp [lookupD, hk] at h
    · simp only [lookupD, if_neg hk] at h
      simp only [countKey, if_neg hk, ih h]

theorem lookupD_refresh (l : Registry) (u : String) (now : Int) :
    lookupD (l.map fun p =>
        if p.1 = u then (p.1, p.2.update_last_seen now) else p) u =
      (lookupD l u).map (fun d => d.update_last_seen now) := by
  induction l with
  | nil => rfl
  | cons p rest ih =>
    obtain ⟨k1, v1⟩ := p
    rw [List.map_cons]
    show lookupD ((if k1 = u then (k1, v1.update_last_seen now) else (k1, v1)) ::
        (rest.map fun p =>
          if p.1 = u then (p.1, p.2.update_last_seen now) else p)) u = _
    by_cases hk : k1 = u
    · rw [if_pos hk]
      show (if k1 = u then some (v1.update_last_seen now) else _) = _
      rw [if_pos hk]
      show _ = Option.map _ (if k1 = u then some v1 else lookupD rest u)
      rw [if_pos hk]
      rfl
    · rw [if_neg hk]
      show (if k1 = u then some v1 else lookupD (rest.map fun p =>
          if p.1 = u then (p.1, p.2.update_last_seen now) else p) u) =
        Option.map (fun d => d.update_last_seen now)
          (if k1 = u then some v1 else lookupD rest u)
      rw [if_neg hk, if_neg hk, ih]

theorem countKey_refresh (l : Registry) (u k : String) (now : Int) :
    countKey (l.map fun p =>
        if p.1 = u then (p.1, p.2.update_last_seen now) else p) k =
      countKey l k := by
  induction l with
  | nil => rfl
  | cons p rest ih =>
    obtain ⟨k1, v1⟩ := p
    rw [List.map_cons]
    show countKey ((if k1 = u then (k1, v1.update_last_seen now) else (k1, v1)) ::
        (rest.map fun p =>
          if p.1 = u then (p.1, p.2.update_last_seen now) else p)) k = _
    by_cases hk : k1 = u
    · rw [if_pos hk, hk]
      show (if u = k then 1 else 0) + _ = _
      rw [ih]
      rfl
    · rw [if_neg hk]
      show (if k1 = k then 1 else 0) + _ = _
      rw [ih]
      rfl

/-- C1: calling the registry upsert twice with the same identifier (at
timestamps `t1` then `t2`, with possibly different location/role/address)
leaves exactly one entry for that identifier, carrying the location,
role and address recorded by the first call and the last-seen timestamp
of the latest call. -/
theorem c1_upsert_idempotent (devices : Registry) (u l1 l2 : String)
    (r1 r2 : Option String) (a1 a2 : String × Nat) (t1 t2 : Int)
    (h : lookupD devices u = none) :
    countKey (upsert (upsert devices u l1 r1 a1 t1) u l2 r2 a2 t2) u = 1 ∧
    lookupD (upsert (upsert devices u l1 r1 a1 t1) u l2 r2 a2 t2) u =
      some ⟨l1, pyOrStr r1 "unknown", u, a1, t2⟩ := by
  set D1 := upsert devices u l1 r1 a1 t1 with hD1
  have h1 : D1 = devices ++ [(u, ⟨l1, pyOrStr r1 "unknown", u, a1, t1⟩)] := by
    rw [hD1]
    simp [upsert, h]
  have hlook : lookupD D1 u =
      some ⟨l1, pyOrStr r1 "unknown", u, a1, t1⟩ := by
    rw [h1, lookupD_append_of_none _ h]
    simp [lookupD]
  have h2 : upsert D1 u l2 r2 a2 t2 =
      D1.map fun p =>
        if p.1 = u then (p.1, p.2.update_last_seen t2) else p := by
    simp [upsert, hlook]
  constructor
  · rw [h2, countKey_refresh, h1, countKey_append, countKey_eq_zero h]
    simp [countKey]
  · rw [h2, lookupD_refresh, hlook]
    rfl

/-- C1 witness: two concrete upserts on the empty registry. -/
theorem c1_upsert_idempotent_witness :
    lookupD ([] : Registry) "dev-1" = none ∧
    countKey (upsert (upsert ([] : Registry) "dev-1" "http://a/d.xml"
      (some "urn:av:1") ("10.0.0.2", 1900) 10) "dev-1" "http://b/d.xml"
      none ("10.0.0.3", 1901) 20) "dev-1" = 1 ∧
    lookupD (upsert (upsert ([] : Registry) "dev-1" "http://a/d.xml"
      (some "urn:av:1") ("10.0.0.2", 1900) 10) "dev-1" "http://b/d.xml"
      none ("10.0.0.3", 1901) 20) "dev-1" =
      some ⟨"http://a/d.xml", "urn:av:1", "dev-1", ("10.0.0.2", 1900), 20⟩ := by
  have h := c1_upsert_idempotent [] "dev-1" "http://a/d.xml" "http://b/d.xml"
    (some "urn:av:1") none ("10.0.0.2", 1900) ("10.0.0.3", 1901) 10 20 rfl
  exact ⟨rfl, h.1, by simpa [pyOrStr] using h.2⟩

/-- C2 counterexample: a presence event whose location is present but
empty (`some ""`) is ignored by the router even though none of the
claim's ignore conditions (missing identifier/location, self identifier,
json-upnp role) holds, and forwarding it to the upsert would have
changed the registry.  The claim's "exactly when" is therefore false on
the code: `if not location or not uuid` also drops empty strings. -/
theorem c2_counterexample :
    handle_ssdp_message "proxy-1" []
      ⟨some "", some "dev-1", none, none, none⟩ ("10.0.0.5", 1900) 0 = [] ∧
    (ParsedMessage.location ⟨some "", some "dev-1", none, none, none⟩ ≠ none) ∧
    (ParsedMessage.uuid ⟨some "", some "dev-1", none, none, none⟩ ≠ none) ∧
    (ParsedMessage.uuid ⟨some "", some "dev-1", none, none, none⟩ ≠ some "proxy-1") ∧
    roleIsJsonUpnp (ParsedMessage.role ⟨some "", some "dev-1", none, none, none⟩) = false ∧
    upsert [] "dev-1" "" none ("10.0.0.5", 1900) 0 ≠ [] := by
  decide

/-- C2 (amended): the discovery message router leaves the registry
untouched exactly when the identifier or location is missing or empty,
the identifier equals the proxy's own identifier, or the declared role
contains "json-upnp" case-insensitively; in every other case the event
is forwarded to the registry upsert, and an unknown identifier with an
absent role yields a new entry with role "unknown". -/
theorem c2_router_filters (proxy : String) (devices : Registry)
    (m : ParsedMessage) (addr : String × Nat) (now : Int) :
    ((m.location = none ∨ m.location = some "" ∨ m.uuid = none ∨
        m.uuid = some "" ∨ m.uuid = some proxy ∨ roleIsJsonUpnp m.role = true) →
      handle_ssdp_message proxy devices m addr now = devices) ∧
    (∀ u l, m.uuid = some u → m.location = some l → u ≠ "" → l ≠ "" →
      u ≠ proxy → roleIsJsonUpnp m.role = false →
      handle_ssdp_message proxy devices m addr now =
        upsert devices u l m.role addr now) ∧
    (∀ u l, m.uuid = some u → m.location = some l → u ≠ "" → l ≠ "" →
      u ≠ proxy → m.role = none → lookupD devices u = none →
      lookupD (handle_ssdp_message proxy devices m addr now) u =
        some ⟨l, "unknown", u, addr, now⟩) := by
  obtain ⟨loc, uu, ro, tg, mw⟩ := m
  refine ⟨?_, ?_, ?_⟩
  · rintro (h | h | h | h | h | h)
    · subst h
      cases uu <;> rfl
    · subst h
      cases uu <;> simp [handle_ssdp_message]
    · subst h
      cases loc <;> rfl
    · subst h
      cases loc <;> simp [handle_ssdp_message]
    · subst h
      cases loc with
      | none => rfl
      | some l =>
        simp only [handle_ssdp_message]
        split_ifs <;> rfl
    · cases loc with
      | none => rfl
      | some l =>
        cases uu with
        | none => rfl
        | some u =>
          simp only [handle_ssdp_message, h]
          split_ifs <;> rfl
  · intro u l hu hl hune hlne hup hrole
    subst hu
    subst hl
    simp [handle_ssdp_message, hune, hlne, hup, hrole]
  · intro u l hu hl hune hlne hup hrole hlook
    subst hu
    subst hl
    subst hrole
    have hro : roleIsJsonUpnp none = false := rfl
    simp only [handle_ssdp_message, hro]
    rw [if_neg (by simp [hune, hlne]), if_neg hup, if_neg (by simp)]
    have hup2 : upsert devices u l none addr now =
        devices ++ [(u, ⟨l, pyOrStr none "unknown", u, addr, now⟩)] := by
      simp [upsert, hlook]
    rw [hup2, lookupD_append_of_none _ hlook]
    simp [lookupD, pyOrStr]

/-- C2 witness: a concrete non-filtered event is forwarded and creates
an entry with role "unknown"; a concrete self event is dropped. -/
theorem c2_router_filters_witness :
    handle_ssdp_message "proxy-1" []
      ⟨some "http://d/desc.xml", some "dev-1", none, none, none⟩
      ("10.0.0.9", 1900) 5 =
      upsert [] "dev-1" "http://d/desc.xml" none ("10.0.0.9", 1900) 5 ∧
    lookupD (handle_ssdp_message "proxy-1" []
      ⟨some "http://d/desc.xml", some "dev-1", none, none, none⟩
      ("10.0.0.9", 1900) 5) "dev-1" =
      some ⟨"http://d/desc.xml", "unknown", "dev-1", ("10.0.0.9", 1900), 5⟩ ∧
    handle_ssdp_message "proxy-1" []
      ⟨some "http://d/desc.xml", some "proxy-1", none, none, none⟩
      ("10.0.0.9", 1900) 5 = [] := by
  have h1 := c2_router_filters "proxy-1" []
    ⟨some "http://d/desc.xml", some "dev-1", none, none, none⟩
    ("10.0.0.9", 1900) 5
  have h2 := c2_router_filters "proxy-1" []
    ⟨some "http://d/desc.xml", some "proxy-1", none, none, none⟩
    ("10.0.0.9", 1900) 5
  refine ⟨?_, ?_, ?_⟩
  · exact h1.2.1 "dev-1" "http://d/desc.xml" rfl rfl (by decide) (by decide)
      (by decide) rfl
  · exact h1.2.2 "dev-1" "http://d/desc.xml" rfl rfl (by decide) (by decide)
      (by decide) rfl rfl
  · exact h2.1 (Or.inr (Or.inr (Or.inr (Or.inr (Or.inl rfl)))))

/-- C3: the staleness sweep removes exactly the entries whose age
`now - last_seen` strictly exceeds the threshold and keeps all others;
concretely, with the loop's threshold 3600 an entry last seen 3601
time-units ago is removed while one last seen 3599 time-units ago is
kept. -/
theorem c3_sweep (devices : Registry) (now maxAge : Int) :
    (∀ u d, (u, d) ∈ (sweep devices now maxAge).2 ↔
      ((u, d) ∈ devices ∧ now - d.last_seen ≤ maxAge)) ∧
    (∀ u, u ∈ (sweep devices now maxAge).1 ↔
      ∃ d, (u, d) ∈ devices ∧ now - d.last_seen > maxAge) ∧
    cleanupSweep
      [("old", ⟨"http://o", "t", "old", ("h", 1), -3601⟩),
       ("fresh", ⟨"http://f", "t", "fresh", ("h", 2), -3599⟩)] 0 =
      (["old"], [("fresh", ⟨"http://f", "t", "fresh", ("h", 2), -3599⟩)]) := by
  refine ⟨?_, ?_, by decide⟩
  · intro u d
    constructor
    · intro h
      have h2 := List.mem_filter.mp h
      refine ⟨h2.1, ?_⟩
      have h3 := h2.2
      simp only [isStale, Bool.not_eq_true', decide_eq_false_iff_not, not_lt] at h3
      exact h3
    · intro h
      refine List.mem_filter.mpr ⟨h.1, ?_⟩
      simp only [isStale, Bool.not_eq_true', decide_eq_false_iff_not, not_lt]
      exact h.2
  · intro u
    constructor
    · intro h
      rcases List.mem_map.mp h with ⟨⟨u2, d⟩, hmem, heq⟩
      rcases List.mem_filter.mp hmem with ⟨hdev, hst⟩
      simp only [isStale, decide_eq_true_eq] at hst
      cases heq
      exact ⟨d, hdev, hst⟩
    · rintro ⟨d, hdev, hgt⟩
      refine List.mem_map.mpr ⟨(u, d), List.mem_filter.mpr ⟨hdev, ?_⟩, rfl⟩
      simp only [isStale, decide_eq_true_eq]
      exact hgt

/-- C3 witness: the membership characterisations applied to the
concrete two-entry registry of the claim. -/
theorem c3_sweep_witness :
    "old" ∈ (sweep
      [("old", ⟨"http://o", "t", "old", ("h", 1), -3601⟩),
       ("fresh", ⟨"http://f", "t", "fresh", ("h", 2), -3599⟩)] 0 3600).1 ∧
    ("fresh", (⟨"http://f", "t", "fresh", ("h", 2), -3599⟩ : DiscoveredDevice)) ∈
      (sweep
        [("old", ⟨"http://o", "t", "old", ("h", 1), -3601⟩),
         ("fresh", ⟨"http://f", "t", "fresh", ("h", 2), -3599⟩)] 0 3600).2 := by
  have h := c3_sweep
    [("old", ⟨"http://o", "t", "old", ("h", 1), -3601⟩),
     ("fresh", ⟨"http://f", "t", "fresh", ("h", 2), -3599⟩)] 0 3600
  refine ⟨(h.2.1 "old").mpr ⟨⟨"http://o", "t", "old", ("h", 1), -3601⟩,
    by decide, by decide⟩, ?_⟩
  exact (h.1 "fresh" ⟨"http://f", "t", "fresh", ("h", 2), -3599⟩).mpr
    ⟨by decide, by decide⟩

theorem put_fresh (cache : Cache) (k : String) (v : JsonVal)
    (h : lookupD cache k = none) : put cache k v = cache ++ [(k, v)] := by
  simp [put, h]

theorem putAll_fresh (entries : List (String × JsonVal)) :
    ∀ acc : Cache,
    (∀ k, k ∈ entries.map Prod.fst → lookupD acc k = none) →
    (entries.map Prod.fst).Nodup →
    putAll acc entries = acc ++ entries := by
  induction entries with
  | nil => intro acc _ _; simp [putAll]
  | cons e rest ih =>
    obtain ⟨k, v⟩ := e
    intro acc hfresh hnodup
    rw [List.map_cons] at hnodup
    have hnd := List.nodup_cons.mp hnodup
    have hk : lookupD acc k = none := hfresh k (by simp)
    have hstep : putAll acc ((k, v) :: rest) = putAll (put acc k v) rest := rfl
    rw [hstep, put_fresh acc k v hk, ih (acc ++ [(k, v)]) ?_ hnd.2]
    · simp
    · intro k2 hk2
      have hne : k ≠ k2 := by
        intro he
        exact hnd.1 (he ▸ hk2)
      rw [lookupD_append_of_none _ (hfresh k2 (by simp [hk2]))]
      simp [lookupD, hne]

/-- C4: the compaction step with thresholds (100, 50) leaves a cache of
at most 100 entries unchanged, truncates a larger cache to its 50
most-recently-inserted entries, and in particular after inserting 101
distinct locations into an empty cache exactly the last 50 inserted
entries survive. -/
theorem c4_compact (c : Cache) (entries : List (String × JsonVal)) :
    (c.length ≤ 100 → cleanupCompact c = c) ∧
    (100 < c.length → cleanupCompact c = c.drop (c.length - 50)) ∧
    (entries.length = 101 → (entries.map Prod.fst).Nodup →
      cleanupCompact (putAll [] entries) = entries.drop 51) := by
  refine ⟨?_, ?_, ?_⟩
  · intro h
    have h2 : ¬(100 < c.length) := Nat.not_lt.mpr h
    simp [cleanupCompact, compact, h2]
  · intro h
    simp [cleanupCompact, compact, h]
  · intro hlen hnodup
    have hall : putAll [] entries = [] ++ entries :=
      putAll_fresh entries [] (fun k _ => rfl) hnodup
    rw [hall, List.nil_append]
    simp [cleanupCompact, compact, hlen]

/-- C4 witness: 101 concrete distinct locations inserted into the empty
cache, then compacted; and the empty cache untouched. -/
theorem c4_compact_witness :
    cleanupCompact (putAll [] sampleEntries) = sampleEntries.drop 51 ∧
    cleanupCompact ([] : Cache) = [] := by
  have h := c4_compact [] sampleEntries
  exact ⟨h.2.2 (by decide) (by decide), h.1 (by decide)⟩

/-- C5: the response policy answers exactly the wildcard target
"ssdp:all", targets containing "json-upnp" case-insensitively, and
targets containing "proxy" case-insensitively; every other target (for
example the MediaServer URN) gets no response. -/
theorem c5_should_respond :
    (∀ t : String, shouldRespond (some t) =
      (decide (t = "ssdp:all") || containsLowered "json-upnp" t ||
        containsLowered "proxy" t)) ∧
    shouldRespond none = false ∧
    shouldRespond (some "ssdp:all") = true ∧
    shouldRespond (some "urn:x-json-UPnP-org:device:thing:1") = true ∧
    shouldRespond (some "urn:my-PROXY:device:1") = true ∧
    shouldRespond (some "urn:schemas-upnp-org:device:MediaServer:1") = false := by
  refine ⟨?_, rfl, by decide, by decide, by decide, by decide⟩
  intro t
  by_cases h1 : t = "ssdp:all"
  · subst h1
    decide
  · by_cases h0 : t = ""
    · subst h0
      decide
    · cases hcj : containsLowered "json-upnp" t <;>
        cases hcp : containsLowered "proxy" t <;>
        simp [shouldRespond, h1, h0, hcj, hcp]

/-- C6 counterexample: for a query carrying an explicit max-wait of 0,
the code computes `mx = message.get_max_wait() or 3 = 3` (Python `or`
treats 0 as falsy), so the emitted delay can be 3, which is outside
`[0, m]` for the query's max-wait `m = 0`; the default 3 is therefore
not applied "exactly when the max-wait is absent". -/
theorem c6_counterexample :
    handle_msearch ⟨none, none, none, some "ssdp:all", some 0⟩ 1 =
      some (responseDelay 1 (some 0), some "ssdp:all") ∧
    responseDelay 1 (some 0) = 3 ∧
    ¬(responseDelay 1 (some 0) ≤ ((0 : Nat) : ℚ)) ∧
    (some 0 ≠ (none : Option Nat)) ∧
    effectiveMaxWait (some 0) = 3 := by
  have hd : responseDelay 1 (some 0) = 3 := by
    norm_num [responseDelay, effectiveMaxWait]
  refine ⟨?_, hd, ?_, by simp, rfl⟩
  · simp [handle_msearch, shouldRespond]
  · rw [hd]
    norm_num

/-- C6 (amended): for every answered query the computed delay lies in
`[0, m]` where `m` is the query's max-wait when that is present and
non-zero, and `m = 3` when the max-wait is absent or zero (Python `or`
falsiness); after the delay, the emitted response carries the queried
target. -/
theorem c6_jitter (r : ℚ) (mw : Option Nat) (tgt : Option String)
    (h0 : 0 ≤ r) (h1 : r ≤ 1) :
    (0 ≤ responseDelay r mw ∧
      responseDelay r mw ≤ (effectiveMaxWait mw : ℚ)) ∧
    (mw = none → effectiveMaxWait mw = 3) ∧
    (mw = some 0 → effectiveMaxWait mw = 3) ∧
    (∀ v : Nat, mw = some v → v ≠ 0 → effectiveMaxWait mw = v) ∧
    (shouldRespond tgt = true →
      handle_msearch ⟨none, none, none, tgt, mw⟩ r =
        some (responseDelay r mw, tgt)) := by
  refine ⟨⟨?_, ?_⟩, ?_, ?_, ?_, ?_⟩
  · exact mul_nonneg h0 (by positivity)
  · calc r * (effectiveMaxWait mw : ℚ) ≤ 1 * (effectiveMaxWait mw : ℚ) :=
      mul_le_mul_of_nonneg_right h1 (by positivity)
    _ = (effectiveMaxWait mw : ℚ) := one_mul _
  · intro h
    subst h
    rfl
  · intro h
    subst h
    rfl
  · intro v hv hvne
    subst hv
    simp [effectiveMaxWait, hvne]
  · intro h
    simp [handle_msearch, h]

/-- C6 witness: a concrete sample r = 1/2 on a wildcard query with no
max-wait. -/
theorem c6_jitter_witness :
    (0 ≤ responseDelay (1/2) none ∧
      responseDelay (1/2) none ≤ (effectiveMaxWait none : ℚ)) ∧
    effectiveMaxWait none = 3 ∧
    handle_msearch ⟨none, none, none, some "ssdp:all", none⟩ (1/2) =
      some (responseDelay (1/2) none, some "ssdp:all") := by
  have h := c6_jitter (1/2) none (some "ssdp:all") (by norm_num) (by norm_num)
  exact ⟨h.1, h.2.1 rfl, h.2.2.2.2 (by decide)⟩

/-- C7: the convert-device-description handler fails with 400 when the
url parameter is missing, 502 when the upstream returns a non-200
status, 504 on fetch timeout, 500 on any other fetch or conversion
error, and otherwise returns the converted description (caching it). -/
theorem c7_convert_statuses (cache : Cache) (unquote : String → String)
    (fetch : String → FetchOutcome) (conv : String → Except String JsonVal)
    (u : String) (hne : u ≠ "")
    (hmiss : lookupD cache (unquote u) = none) :
    (handle_device_to_json cache none unquote fetch conv =
      (⟨400, .err "Missing \x27url\x27 parameter"⟩, cache)) ∧
    (fetch (unquote u) = .timeout →
      handle_device_to_json cache (some u) unquote fetch conv =
        (⟨504, .err "Timeout fetching device description"⟩, cache)) ∧
    (∀ s b, fetch (unquote u) = .ok s b → s ≠ 200 →
      handle_device_to_json cache (some u) unquote fetch conv =
        (⟨502, .err ("Device returned status " ++ toString s)⟩, cache)) ∧
    (∀ e, fetch (unquote u) = .failed e →
      handle_device_to_json cache (some u) unquote fetch conv =
        (⟨500, .err e⟩, cache)) ∧
    (∀ b e, fetch (unquote u) = .ok 200 b → conv b = .error e →
      handle_device_to_json cache (some u) unquote fetch conv =
        (⟨500, .err e⟩, cache)) ∧
    (∀ b j, fetch (unquote u) = .ok 200 b → conv b = .ok j →
      handle_device_to_json cache (some u) unquote fetch conv =
        (⟨200, .json j⟩, put cache (unquote u) j)) := by
  refine ⟨rfl, ?_, ?_, ?_, ?_, ?_⟩
  · intro hf
    simp [handle_device_to_json, hne, hmiss, hf]
  · intro s b hf hs
    simp [handle_device_to_json, hne, hmiss, hf, hs]
  · intro e hf
    simp [handle_device_to_json, hne, hmiss, hf]
  · intro b e hf hc
    simp [handle_device_to_json, hne, hmiss, hf, hc]
  · intro b j hf hc
    simp [handle_device_to_json, hne, hmiss, hf, hc]

/-- C7 witness: concrete missing-parameter and timeout requests. -/
theorem c7_convert_statuses_witness :
    handle_device_to_json [] none id (fun _ => FetchOutcome.timeout)
      (fun _ => Except.error "bad xml") =
      (⟨400, .err "Missing \x27url\x27 parameter"⟩, []) ∧
    handle_device_to_json [] (some "http://d/desc.xml") id
      (fun _ => FetchOutcome.timeout) (fun _ => Except.error "bad xml") =
      (⟨504, .err "Timeout fetching device description"⟩, []) := by
  have h := c7_convert_statuses [] id (fun _ => FetchOutcome.timeout)
    (fun _ => Except.error "bad xml") "http://d/desc.xml" (by decide) rfl
  exact ⟨h.1, h.2.1 rfl⟩

/-- C8: the conversion endpoint memoizes on the un-escaped location: a
hit returns the stored value with no fetch and no conversion (the result
does not depend on the fetch or converter at all) and leaves the cache
unchanged; a first successful call stores the converted value, and an
identical second call returns it whatever the fetch/converter then do;
an existing cache entry is never changed by any call. -/
theorem c8_memoization (cache : Cache) (u : String)
    (unquote : String → String) (fetch fetch2 : String → FetchOutcome)
    (conv conv2 : String → Except String JsonVal) (hne : u ≠ "") :
    (∀ v, lookupD cache (unquote u) = some v →
      handle_device_to_json cache (some u) unquote fetch conv =
        (⟨200, .json v⟩, cache)) ∧
    (∀ b j, lookupD cache (unquote u) = none →
      fetch (unquote u) = .ok 200 b → conv b = .ok j →
      handle_device_to_json cache (some u) unquote fetch conv =
        (⟨200, .json j⟩, cache ++ [(unquote u, j)]) ∧
      handle_device_to_json (cache ++ [(unquote u, j)]) (some u) unquote
        fetch2 conv2 = (⟨200, .json j⟩, cache ++ [(unquote u, j)])) ∧
    (∀ k w, lookupD cache k = some w → ∀ urlParam,
      lookupD (handle_device_to_json cache urlParam unquote fetch conv).2 k =
        some w) := by
  refine ⟨?_, ?_, ?_⟩
  · intro v hv
    simp [handle_device_to_json, hne, hv]
  · intro b j hmiss hf hc
    have hput : put cache (unquote u) j = cache ++ [(unquote u, j)] :=
      put_fresh cache (unquote u) j hmiss
    constructor
    · simp [handle_device_to_json, hne, hmiss, hf, hc, hput]
    · have hhit : lookupD (cache ++ [(unquote u, j)]) (unquote u) = some j := by
        rw [lookupD_append_of_none _ hmiss]
        simp [lookupD]
      simp [handle_device_to_json, hne, hhit]
  · intro k w hk urlParam
    cases urlParam with
    | none => exact hk
    | some u0 =>
      by_cases h0 : u0 = ""
      · simp [handle_device_to_json, h0, hk]
      · cases hv : lookupD cache (unquote u0) with
        | some v => simp [handle_device_to_json, h0, hv, hk]
        | none =>
          cases hf : fetch (unquote u0) with
          | timeout => simp [handle_device_to_json, h0, hv, hf, hk]
          | failed e => simp [handle_device_to_json, h0, hv, hf, hk]
          | ok s b =>
            by_cases hs : s = 200
            · subst hs
              cases hc : conv b with
              | error e => simp [handle_device_to_json, h0, hv, hf, hc, hk]
              | ok j =>
                have hput : put cache (unquote u0) j =
                    cache ++ [(unquote u0, j)] :=
                  put_fresh cache (unquote u0) j hv
                simp [handle_device_to_json, h0, hv, hf, hc, hput,
                  lookupD_append_of_some [(unquote u0, j)] hk]
            · simp [handle_device_to_json, h0, hv, hf, hs, hk]

/-- C8 witness: a concrete first call converts and caches; the second
identical call answers from the cache even with a failing fetch and
converter; an unrelated pre-existing entry survives a successful call. -/
theorem c8_memoization_witness :
    handle_device_to_json [] (some "http://dev/desc.xml") id
      (fun _ => FetchOutcome.ok 200 "<root/>")
      (fun _ => Except.ok (JsonVal.mk "dev")) =
      (⟨200, .json (JsonVal.mk "dev")⟩,
       [("http://dev/desc.xml", JsonVal.mk "dev")]) ∧
    handle_device_to_json [("http://dev/desc.xml", JsonVal.mk "dev")]
      (some "http://dev/desc.xml") id (fun _ => FetchOutcome.timeout)
      (fun _ => Except.error "down") =
      (⟨200, .json (JsonVal.mk "dev")⟩,
       [("http://dev/desc.xml", JsonVal.mk "dev")]) ∧
    lookupD (handle_device_to_json [("http://old/d.xml", JsonVal.mk "o")]
      (some "http://dev/desc.xml") id
      (fun _ => FetchOutcome.ok 200 "<root/>")
      (fun _ => Except.ok (JsonVal.mk "dev"))).2 "http://old/d.xml" =
      some (JsonVal.mk "o") := by
  have h := c8_memoization [] "http://dev/desc.xml" id
    (fun _ => FetchOutcome.ok 200 "<root/>") (fun _ => FetchOutcome.timeout)
    (fun _ => Except.ok (JsonVal.mk "dev")) (fun _ => Except.error "down")
    (by decide)
  have h2 := (h.2.1 "<root/>" (JsonVal.mk "dev") rfl rfl rfl)
  have h3 := c8_memoization [("http://old/d.xml", JsonVal.mk "o")]
    "http://dev/desc.xml" id
    (fun _ => FetchOutcome.ok 200 "<root/>") (fun _ => FetchOutcome.timeout)
    (fun _ => Except.ok (JsonVal.mk "dev")) (fun _ => Except.error "down")
    (by decide)
  exact ⟨h2.1, h2.2,
    h3.2.2 "http://old/d.xml" (JsonVal.mk "o") rfl (some "http://dev/desc.xml")⟩

/-- C9: the get-one-device handler never touches the conversion cache:
the cache after the request equals the cache before, the reply is
independent of the cache contents, and for a known identifier with a
successful fetch the returned description is the freshly converted
one. -/
theorem c9_get_device_cache_bypass (devices : Registry)
    (cache cache2 : Cache) (u : String) (fetch : String → FetchOutcome)
    (conv : String → Except String JsonVal) :
    ((handle_get_device devices cache u fetch conv).2 = cache) ∧
    ((handle_get_device devices cache u fetch conv).1 =
      (handle_get_device devices cache2 u fetch conv).1) ∧
    (∀ d s b j, lookupD devices u = some d → fetch d.location = .ok s b →
      conv b = .ok j →
      (handle_get_device devices cache u fetch conv).1 =
        (200, .okDesc u d.location d.last_seen j)) := by
  refine ⟨?_, ?_, ?_⟩
  · cases hl : lookupD devices u with
    | none => simp [handle_get_device, hl]
    | some d =>
      cases hf : fetch d.location with
      | timeout => simp [handle_get_device, hl, hf]
      | failed e => simp [handle_get_device, hl, hf]
      | ok s b =>
        cases hc : conv b with
        | error e => simp [handle_get_device, hl, hf, hc]
        | ok j => simp [handle_get_device, hl, hf, hc]
  · cases hl : lookupD devices u with
    | none => simp [handle_get_device, hl]
    | some d =>
      cases hf : fetch d.location with
      | timeout => simp [handle_get_device, hl, hf]
      | failed e => simp [handle_get_device, hl, hf]
      | ok s b =>
        cases hc : conv b with
        | error e => simp [handle_get_device, hl, hf, hc]
        | ok j => simp [handle_get_device, hl, hf, hc]
  · intro d s b j hl hf hc
    simp [handle_get_device, hl, hf, hc]

/-- C9 witness: a known device is served with a freshly converted
description while a conflicting cache entry for its location is neither
consulted nor modified. -/
theorem c9_get_device_cache_bypass_witness :
    (handle_get_device
      [("dev-1", ⟨"http://d/x.xml", "urn:av:1", "dev-1", ("h", 1), 7⟩)]
      [("http://d/x.xml", JsonVal.mk "stale")] "dev-1"
      (fun _ => FetchOutcome.ok 200 "<root/>")
      (fun _ => Except.ok (JsonVal.mk "fresh"))).2 =
      [("http://d/x.xml", JsonVal.mk "stale")] ∧
    (handle_get_device
      [("dev-1", ⟨"http://d/x.xml", "urn:av:1", "dev-1", ("h", 1), 7⟩)]
      [("http://d/x.xml", JsonVal.mk "stale")] "dev-1"
      (fun _ => FetchOutcome.ok 200 "<root/>")
      (fun _ => Except.ok (JsonVal.mk "fresh"))).1 =
      (200, .okDesc "dev-1" "http://d/x.xml" 7 (JsonVal.mk "fresh")) := by
  have h := c9_get_device_cache_bypass
    [("dev-1", ⟨"http://d/x.xml", "urn:av:1", "dev-1", ("h", 1), 7⟩)]
    [("http://d/x.xml", JsonVal.mk "stale")] [] "dev-1"
    (fun _ => FetchOutcome.ok 200 "<root/>")
    (fun _ => Except.ok (JsonVal.mk "fresh"))
  exact ⟨h.1, h.2.2 ⟨"http://d/x.xml", "urn:av:1", "dev-1", ("h", 1), 7⟩
    200 "<root/>" (JsonVal.mk "fresh") rfl rfl rfl⟩

/-- C10: whenever the conversion endpoint replies with an error status
the cache is exactly what it was, and conversely any cache change comes
from a fully successful fetch-and-convert, which appends the freshly
converted entry. -/
theorem c10_error_leaves_cache (cache : Cache) (urlParam : Option String)
    (unquote : String → String) (fetch : String → FetchOutcome)
    (conv : String → Except String JsonVal) :
    ((handle_device_to_json cache urlParam unquote fetch conv).1.status ≠ 200 →
      (handle_device_to_json cache urlParam unquote fetch conv).2 = cache) ∧
    ((handle_device_to_json cache urlParam unquote fetch conv).2 ≠ cache →
      ∃ u b j, urlParam = some u ∧ u ≠ "" ∧
        lookupD cache (unquote u) = none ∧
        fetch (unquote u) = .ok 200 b ∧ conv b = .ok j ∧
        handle_device_to_json cache urlParam unquote fetch conv =
          (⟨200, .json j⟩, cache ++ [(unquote u, j)])) := by
  cases urlParam with
  | none => exact ⟨fun _ => rfl, fun hne => absurd rfl hne⟩
  | some u0 =>
    by_cases h0 : u0 = ""
    · refine ⟨fun _ => ?_, fun hne => absurd ?_ hne⟩ <;>
        simp [handle_device_to_json, h0]
    · cases hv : lookupD cache (unquote u0) with
      | some v =>
        refine ⟨fun hs => absurd ?_ hs, fun hne => absurd ?_ hne⟩ <;>
          simp [handle_device_to_json, h0, hv]
      | none =>
        cases hf : fetch (unquote u0) with
        | timeout =>
          refine ⟨fun _ => ?_, fun hne => absurd ?_ hne⟩ <;>
            simp [handle_device_to_json, h0, hv, hf]
        | failed e =>
          refine ⟨fun _ => ?_, fun hne => absurd ?_ hne⟩ <;>
            simp [handle_device_to_json, h0, hv, hf]
        | ok s b =>
          by_cases hs : s = 200
          · subst hs
            cases hc : conv b with
            | error e =>
              refine ⟨fun _ => ?_, fun hne => absurd ?_ hne⟩ <;>
                simp [handle_device_to_json, h0, hv, hf, hc]
            | ok j =>
              have hput : put cache (unquote u0) j =
                  cache ++ [(unquote u0, j)] :=
                put_fresh cache (unquote u0) j hv
              have hrun : handle_device_to_json cache (some u0) unquote
                  fetch conv = (⟨200, .json j⟩, cache ++ [(unquote u0, j)]) := by
                simp [handle_device_to_json, h0, hv, hf, hc, hput]
              refine ⟨fun hst => absurd ?_ hst, fun _ => ?_⟩
              · rw [hrun]
              · exact ⟨u0, b, j, rfl, h0, hv, hf, hc, hrun⟩
          · refine ⟨fun _ => ?_, fun hne => absurd ?_ hne⟩ <;>
              simp [handle_device_to_json, h0, hv, hf, hs]

/-- C10 witness: a concrete timeout failure leaves a non-trivial cache
exactly as it was. -/
theorem c10_error_leaves_cache_witness :
    (handle_device_to_json [("http://old/d.xml", JsonVal.mk "o")]
      (some "http://dev/desc.xml") id (fun _ => FetchOutcome.timeout)
      (fun _ => Except.error "down")).1.status = 504 ∧
    (handle_device_to_json [("http://old/d.xml", JsonVal.mk "o")]
      (some "http://dev/desc.xml") id (fun _ => FetchOutcome.timeout)
      (fun _ => Except.error "down")).2 =
      [("http://old/d.xml", JsonVal.mk "o")] := by
  have h := c10_error_leaves_cache [("http://old/d.xml", JsonVal.mk "o")]
    (some "http://dev/desc.xml") id (fun _ => FetchOutcome.timeout)
    (fun _ => Except.error "down")
  exact ⟨by decide, h.1 (by decide)⟩

end JsonUpnpProxy
